import Mathlib

/-!
Shallow embedding of the authentication / authorization core of the
PhotoShare backend (Project/src/services/auth_service.py,
Project/src/services/dependencies.py, Project/src/services/roles.py,
Project/src/routes/auth.py, Project/src/entity/models.py), together with
theorems settling the frozen claims about it.

Library semantics used by the code are modelled explicitly:
  - jose `jwt.encode`/`jwt.decode`: a token string is either a payload
    correctly signed with the process secret (encode is injective on
    payloads under a fixed key) or any other string, which fails signature
    verification; `decode` raises `ExpiredSignatureError` (a subclass of
    `JWTError`) when the `exp` claim is in the past.
  - passlib `CryptContext(schemes=["bcrypt"]).verify` / `.hash`: a stored
    hash string is either a well-formed bcrypt hash of some password under
    some salt or a malformed string; per passlib's documented contract,
    `verify` returns whether the secret matches for a recognized hash and
    raises `UnknownHashError` (a `ValueError`) when the hash string cannot
    be identified as any configured scheme.
  - Python `await` applied to a non-awaitable raises `TypeError`; an
    exception a handler does not catch is surfaced by the framework as a
    500 response, distinct from any raised `HTTPException`.
Time is a natural-number timestamp passed explicitly (`datetime.utcnow()`).
The credential store (an external collaborator reached through SQLAlchemy)
is a list of user rows; `select(User).filter(...).scalars().first()` /
`.scalar()` is first-match lookup, and ORM object mutation + commit is a
by-primary-key row update.
-/

namespace PhotoShare

/-- Role enumeration from entity/models.py (`admin`, `moderator`, `user`). -/
inductive Role where
  | admin
  | moderator
  | user
deriving DecidableEq, Repr

/-- Python `.name` of a `Role` enum member. -/
def Role.pyName : Role → String
  | .admin => "admin"
  | .moderator => "moderator"
  | .user => "user"

/-- JWT claims set as assembled by `create_access_token` /
`create_refresh_token`: `sub`, `iat`, `exp`, `scope` (the `data` dict passed
by every caller in the repository is `{"sub": email}`). -/
structure Payload where
  sub : Option String
  iat : Nat
  exp : Nat
  scope : String
deriving DecidableEq, Repr

/-- A token string: either a string correctly signed with `SECRET_KEY`
 encoding a claims set (jose `jwt.encode` is injective on payloads for a
 fixed key and algorithm), or any other string, which fails signature
 verification. -/
inductive TokenStr where
  | signed (p : Payload)
  | garbage (s : String)
deriving DecidableEq, Repr

/-- Errors raised by jose `jwt.decode`; `expiredSignature` models
`ExpiredSignatureError`, which in jose is a subclass of `JWTError`. -/
inductive JoseError where
  | expiredSignature
  | jwtError
deriving DecidableEq, Repr

/-- Model of jose `jwt.decode(token, SECRET_KEY, algorithms=[ALGORITHM])` at
time `now`: signature verification first, then the expiry check
(`ExpiredSignatureError` when `exp` is strictly in the past). -/
def jwtDecode (now : Nat) (t : TokenStr) : Except JoseError Payload :=
  match t with
  | .garbage _ => .error .jwtError
  | .signed p => if p.exp < now then .error .expiredSignature else .ok p

/-- The `sub` claim recoverable from a token string, when it verifies. -/
def tokenSub : TokenStr → Option String
  | .signed p => p.sub
  | .garbage _ => none

/-- The `scope` claim recoverable from a token string, when it verifies. -/
def tokenScope : TokenStr → Option String
  | .signed p => some p.scope
  | .garbage _ => none

/-- A stored password-hash string: either a well-formed bcrypt hash of `pw`
under `salt` (recognized by passlib), or a malformed string no configured
scheme identifies. -/
inductive HashStr where
  | bcrypt (pw : String) (salt : Nat)
  | malformed (s : String)
deriving DecidableEq, Repr

/-- Error raised by passlib when a hash string cannot be identified
(`UnknownHashError`, a `ValueError`). -/
inductive PasslibError where
  | unknownHash
deriving DecidableEq, Repr

/-- Model of passlib `pwd_context.verify(secret, hash)` for
`CryptContext(schemes=["bcrypt"])`: for a recognized bcrypt hash it returns
whether the secret matches; for an unidentifiable hash string it raises
`UnknownHashError` rather than returning. -/
def cryptContextVerify (plain : String) (h : HashStr) : Except PasslibError Bool :=
  match h with
  | .bcrypt pw _ => .ok (plain == pw)
  | .malformed _ => .error .unknownHash

/-- auth_service.get_password_hash: `pwd_context.hash(password)` with a
fresh salt supplied by the environment. -/
def get_password_hash (password : String) (salt : Nat) : HashStr :=
  .bcrypt password salt

/-- auth_service.verify_password: `return pwd_context.verify(plain_password,
hashed_password)`. -/
def verify_password (plain_password : String) (hashed_password : HashStr) :
    Except PasslibError Bool :=
  cryptContextVerify plain_password hashed_password

/-- User row (entity/models.py `User`), restricted to the columns the
authentication/authorization core reads or writes; omitted columns
(avatar, timestamps, birthday, phone, about, is_active, relationships) are
never consulted by the functions embedded here. -/
structure Usr where
  id : Nat
  email : String
  username : String
  hashed_password : HashStr
  refresh_token : Option TokenStr
  role : Role
  is_blocked : Bool
deriving DecidableEq, Repr

/-- A raised fastapi `HTTPException(status_code, detail)`. -/
structure HTTPError where
  status : Nat
  detail : String
deriving DecidableEq, Repr

/-- `db.execute(select(User).filter(User.email == email))` followed by
`.scalars().first()` (or `.scalar()`): the first stored row with exactly
this email, if any. -/
def findByEmail (db : List Usr) (email : String) : Option Usr :=
  (db.filter (fun u => u.email == email)).head?

/-- Python truthiness of the optional `expires_delta` argument
(`if expires_delta:`): `None` and `0` are falsy. -/
def pyTruthy : Option Nat → Bool
  | none => false
  | some d => d != 0

/-- auth_service.create_access_token: copies the caller's `sub`, stamps
`iat := now`, `exp := now + expires_delta` seconds when a truthy delta is
given else 15 minutes, sets `scope := "access_token"`, and signs with the
process secret. -/
def create_access_token (now : Nat) (sub : Option String)
    (expires_delta : Option Nat) : TokenStr :=
  let expire := if pyTruthy expires_delta then now + expires_delta.getD 0
                else now + 15 * 60
  .signed { sub := sub, iat := now, exp := expire, scope := "access_token" }

/-- auth_service.create_refresh_token: same as the access variant but with a
7-day default lifetime and `scope := "refresh_token"`. -/
def create_refresh_token (now : Nat) (sub : Option String)
    (expires_delta : Option Nat) : TokenStr :=
  let expire := if pyTruthy expires_delta then now + expires_delta.getD 0
                else now + 7 * 86400
  .signed { sub := sub, iat := now, exp := expire, scope := "refresh_token" }

/-- Response dict the refresh handler is written to return on success:
`{"access_token": ..., "token_type": "bearer"}` (never actually reached —
see `refresh_token`). -/
structure AccessTokenResponse where
  access_token : TokenStr
  token_type : String
deriving DecidableEq, Repr

/-- Outcome of the refresh handler: either a raised `HTTPException`,
carried to the client with its status, or an uncaught Python exception
(the `TypeError` below), which the framework surfaces as a generic 500
response. -/
inductive PyErr where
  | http (e : HTTPError)
  | typeError
deriving DecidableEq, Repr

/-- HTTP status of the response produced for a failed handler: the
carried status of an `HTTPException`, 500 for an uncaught exception. -/
def PyErr.status : PyErr → Nat
  | .http e => e.status
  | .typeError => 500

/-- auth_service.refresh_token: decode the presented refresh token (401
"Token expired" on `ExpiredSignatureError`, 401 "Invalid token" on any
other `JWTError` or a missing `sub`), look the subject up by email, and
reject with 401 "Invalid token" when no user is found or the stored
`refresh_token` column is not exactly the presented string. When every
check passes, the next statement is `access_token = await
create_access_token(data={"sub": email})` — but `create_access_token` is
a plain synchronous function returning a `str`, so the `await` raises an
uncaught `TypeError` (surfaced as a 500): the function can never return
its would-be success dictionary. No path performs a store write (no ORM
mutation, no commit). -/
def refresh_token (now : Nat) (db : List Usr) (tok : TokenStr) :
    Except PyErr (List Usr × AccessTokenResponse) :=
  match jwtDecode now tok with
  | .error .expiredSignature => .error (.http ⟨401, "Token expired"⟩)
  | .error .jwtError => .error (.http ⟨401, "Invalid token"⟩)
  | .ok payload =>
    match payload.sub with
    | none => .error (.http ⟨401, "Invalid token"⟩)
    | some email =>
      match findByEmail db email with
      | none => .error (.http ⟨401, "Invalid token"⟩)
      | some user =>
        if user.refresh_token = some tok then
          .error .typeError
        else .error (.http ⟨401, "Invalid token"⟩)

/-- auth_service.authenticate_user: first-match lookup by email, then
passlib verify of the supplied password against the stored hash; returns
the user on success and Python `False` (here `none`) when the email is
unknown or the password does not match. An `UnknownHashError` from passlib
would propagate. -/
def authenticate_user (db : List Usr) (email password : String) :
    Except PasslibError (Option Usr) :=
  match findByEmail db email with
  | none => .ok none
  | some user =>
    match cryptContextVerify password user.hashed_password with
    | .error e => .error e
    | .ok b => if b then .ok (some user) else .ok none

/-- Signup request body (schemas UserSignup fields used by `signup`). -/
structure SignupData where
  email : String
  username : String
  password : String
  first_name : String
  last_name : String
deriving DecidableEq, Repr

/-- Response of a successful signup. -/
structure SignupResponse where
  msg : String
  user_id : Nat
deriving DecidableEq, Repr

/-- Autoincrement primary key assigned by the store on insert. -/
def nextId (db : List Usr) : Nat :=
  db.foldl (fun m u => max m u.id) 0 + 1

/-- auth_service.signup: reject with 400 "Email already registered" when a
row with the same email exists (the store is left unchanged — the
exception is raised before any insert); otherwise insert a new row whose
role is `admin` when `select(User)).scalar() is None` (the store holds no
row at the moment of the check) and `user` otherwise, with a freshly
salted bcrypt hash of the password and the column defaults
(`refresh_token` absent, `is_blocked` false). -/
def signup (db : List Usr) (u : SignupData) (salt : Nat) :
    Except HTTPError (List Usr × SignupResponse) :=
  if ((db.filter (fun v => v.email == u.email)).head?).isSome then
    .error ⟨400, "Email already registered"⟩
  else
    let newUser : Usr :=
      { id := nextId db
        email := u.email
        username := u.username
        hashed_password := get_password_hash u.password salt
        refresh_token := none
        role := if db.head?.isNone then Role.admin else Role.user
        is_blocked := false }
    .ok (db ++ [newUser], { msg := "User created successfully", user_id := newUser.id })

/-- Response dict of a successful signin. -/
structure SigninResponse where
  access_token : TokenStr
  refresh_token : TokenStr
  token_type : String
deriving DecidableEq, Repr

/-- Errors surfaced by `signin`: either a raised `HTTPException` or a
propagated passlib error (the latter impossible for store-produced
hashes). -/
inductive AuthErr where
  | http (e : HTTPError)
  | passlib (e : PasslibError)
deriving DecidableEq, Repr

/-- auth_service.signin: authenticate by email/password (400 "Incorrect
email or password" when authentication returns `False`), then issue an
access/refresh pair, persist the refresh token onto the authenticated
user's row (ORM mutation of the fetched object + commit, i.e. a
by-primary-key update overwriting any prior value), and return both
tokens. -/
def signin (now : Nat) (db : List Usr) (email password : String) :
    Except AuthErr (List Usr × SigninResponse) :=
  match authenticate_user db email password with
  | .error e => .error (.passlib e)
  | .ok none => .error (.http ⟨400, "Incorrect email or password"⟩)
  | .ok (some user) =>
    let access := create_access_token now (some user.email) none
    let refresh := create_refresh_token now (some user.email) none
    let db2 := db.map (fun v =>
      if v.id == user.id then { v with refresh_token := some refresh } else v)
    .ok (db2, { access_token := access, refresh_token := refresh,
                token_type := "bearer" })

/-- Acknowledgement dict of signout. -/
structure Ack where
  msg : String
deriving DecidableEq, Repr

/-- auth_service.signout: unconditionally clear the authenticated user's
stored `refresh_token` to absent (ORM mutation + commit, a by-primary-key
update) and acknowledge; there is no failure path. -/
def signout (db : List Usr) (user : Usr) : List Usr × Ack :=
  (db.map (fun v => if v.id == user.id then { v with refresh_token := none } else v),
   { msg := "Successfully logged out" })

/-- dependencies.get_current_user: the Authentication Gate. A missing
bearer token is rejected 401 by `OAuth2PasswordBearer` before the body
runs; a token failing decode (including `ExpiredSignatureError`, a
`JWTError` subclass caught by the `except JWTError` clause), a missing
`sub`, or an unknown subject yields the 401 credentials exception; a
resolved user with `is_blocked` true yields 403 "Your account is blocked."
(an `HTTPException`, not a `JWTError`, so it propagates out of the `try`);
otherwise the resolved user is returned. -/
def get_current_user (now : Nat) (db : List Usr) (token : Option TokenStr) :
    Except HTTPError Usr :=
  match token with
  | none => .error ⟨401, "Not authenticated"⟩
  | some tok =>
    match jwtDecode now tok with
    | .error _ => .error ⟨401, "Could not validate credentials"⟩
    | .ok payload =>
      match payload.sub with
      | none => .error ⟨401, "Could not validate credentials"⟩
      | some email =>
        match findByEmail db email with
        | none => .error ⟨401, "Could not validate credentials"⟩
        | some user =>
          if user.is_blocked then .error ⟨403, "Your account is blocked."⟩
          else .ok user

/-- auth_service.admin_required: 403 unless the already-authenticated
caller's role is exactly `admin`. -/
def admin_required (current_user : Usr) : Except HTTPError Usr :=
  if current_user.role ≠ Role.admin then
    .error ⟨403, "You do not have the necessary permissions to access this resource."⟩
  else .ok current_user

/-- auth_service.moderate_required: 403 unless the caller's role is in
`[Role.admin, Role.moderator]`. -/
def moderate_required (current_user : Usr) : Except HTTPError Usr :=
  if ¬ (current_user.role ∈ [Role.admin, Role.moderator]) then
    .error ⟨403, "You do not have the necessary permissions to access this resource."⟩
  else .ok current_user

/-- roles.RoleChecker.__call__, membership step: after the user is
resolved, 403 unless the user's role `.name` is among the `.name`s of the
allowed roles the route was registered with (the routes instantiate
`RoleChecker` with entity `Role` members). -/
def roleCheckerCall (allowed_roles : List Role) (user : Usr) :
    Except HTTPError Usr :=
  if ¬ ((allowed_roles.map Role.pyName).contains user.role.pyName) then
    .error ⟨403, "You do not have permission to perform this action"⟩
  else .ok user

/-- routes/auth.promote_to_moderator, body after the `admin_required`
dependency: fetch the target row by id (404 "User not found" when absent),
unconditionally set its role column to `moderator`, commit, and return the
updated row. -/
def promote_to_moderator (db : List Usr) (user_id : Nat) :
    Except HTTPError (List Usr × Usr) :=
  match (db.filter (fun u => u.id == user_id)).head? with
  | none => .error ⟨404, "User not found"⟩
  | some user =>
    .ok (db.map (fun v => if v.id == user_id then { v with role := Role.moderator } else v),
         { user with role := Role.moderator })

/-- routes/auth.block_user, body after the `admin_required` dependency:
400 when the admin targets themself, 404 when the target id is absent,
else set the target's `is_blocked` column to the given flag. -/
def block_user (db : List Usr) (current_user : Usr) (user_id : Nat) (block : Bool) :
    Except HTTPError (List Usr × Usr) :=
  if current_user.id == user_id then
    .error ⟨400, "You cannot block yourself."⟩
  else
    match (db.filter (fun u => u.id == user_id)).head? with
    | none => .error ⟨404, "User not found"⟩
    | some user =>
      .ok (db.map (fun v => if v.id == user_id then { v with is_blocked := block } else v),
           { user with is_blocked := block })

/-- The token fails signature or expiry verification at `now`. -/
def failsVerification (now : Nat) (t : TokenStr) : Prop :=
  ∃ e, jwtDecode now t = .error e

/-- The token exactly equals the refresh-token value currently stored on
the user identified by the token's subject (false when the subject claim
is missing or unknown). -/
def storedMatch (db : List Usr) (t : TokenStr) : Prop :=
  ∃ e u, tokenSub t = some e ∧ findByEmail db e = some u ∧ u.refresh_token = some t

/-- Reachable-store invariant: every stored refresh-token value carries
scope `refresh_token` (as every token `signin` persists does, being
produced by `create_refresh_token`, and `signout` only clears the
column). -/
def storedRefreshOk (db : List Usr) : Prop :=
  ∀ u ∈ db, ∀ t, u.refresh_token = some t → tokenScope t = some "refresh_token"

/-! Helper lemmas about the embedding. -/

/-- A successful email lookup returns a member of the store with that
email. -/
theorem findByEmail_mem {db : List Usr} {e : String} {u : Usr}
    (h : findByEmail db e = some u) : u ∈ db ∧ u.email = e := by
  unfold findByEmail at h
  have hx : u ∈ db.filter (fun v => v.email == e) := by
    cases hf : db.filter (fun v => v.email == e) with
    | nil => rw [hf] at h; cases h
    | cons x xs =>
      rw [hf] at h
      have hxu : x = u := by simpa using h
      rw [← hxu]
      exact List.mem_cons_self _ _
  have hm := List.mem_filter.mp hx
  exact ⟨hm.1, by simpa using hm.2⟩

/-- Email lookup commutes with an email-preserving row update. -/
theorem findByEmail_map (db : List Usr) (e : String) (f : Usr → Usr)
    (hf : ∀ u, (f u).email = u.email) :
    findByEmail (db.map f) e = (findByEmail db e).map f := by
  induction db with
  | nil => rfl
  | cons a l ih =>
    unfold findByEmail at *
    by_cases h : a.email = e
    · simp [List.filter_cons, hf, h]
    · have hb : (a.email == e) = false := by simpa using h
      have hb2 : ((f a).email == e) = false := by rw [hf]; exact hb
      simpa [List.filter_cons, hb, hb2] using ih

/-- Python member names of the entity `Role` enum are distinct. -/
theorem pyName_inj : ∀ a b : Role, Role.pyName a = Role.pyName b → a = b := by
  intro a b h
  cases a <;> cases b <;> first
    | rfl
    | exact absurd h (by decide)

/-- Membership of a role's name among the names of a role list coincides
with membership of the role itself. -/
theorem roleNames_mem (l : List Role) (r : Role) :
    ((l.map Role.pyName).contains r.pyName) = true ↔ r ∈ l := by
  induction l with
  | nil => simp
  | cons a t ih =>
    simp only [List.map_cons, List.contains_cons, Bool.or_eq_true, beq_iff_eq,
      List.mem_cons, ih]
    constructor
    · rintro (h | h)
      · exact Or.inl (pyName_inj r a h)
      · exact Or.inr h
    · rintro (h | h)
      · exact Or.inl (by rw [h])
      · exact Or.inr h

/-- No refresh call ever succeeds: every branch of the handler either
raises an `HTTPException` or — when all checks pass — hits the `await` of
the synchronous `create_access_token` and raises `TypeError`. -/
theorem refresh_never_ok (now : Nat) (db : List Usr) (t : TokenStr)
    (db2 : List Usr) (r : AccessTokenResponse) :
    refresh_token now db t ≠ .ok (db2, r) := by
  intro h
  cases t with
  | garbage s => simp [refresh_token, jwtDecode] at h
  | signed p =>
    by_cases hlt : p.exp < now
    · simp [refresh_token, jwtDecode, hlt] at h
    · cases hs : p.sub with
      | none => simp [refresh_token, jwtDecode, hlt, hs] at h
      | some email =>
        cases hfe : findByEmail db email with
        | none => simp [refresh_token, jwtDecode, hlt, hs, hfe] at h
        | some user =>
          by_cases hrt : user.refresh_token = some (.signed p)
          · simp [refresh_token, jwtDecode, hlt, hs, hfe, hrt] at h
          · simp [refresh_token, jwtDecode, hlt, hs, hfe, hrt] at h

/-- On the would-be success path — token verifies and exactly matches the
stored value of the identified user — refresh raises the uncaught
`TypeError`. -/
theorem refresh_crash_on_match (now : Nat) (db : List Usr) (t : TokenStr)
    (hver : ¬ failsVerification now t) (hm : storedMatch db t) :
    refresh_token now db t = .error .typeError := by
  obtain ⟨e, u, hsub, hfe, hst⟩ := hm
  cases t with
  | garbage s => exact absurd ⟨.jwtError, rfl⟩ hver
  | signed p =>
    by_cases hlt : p.exp < now
    · exact absurd ⟨.expiredSignature, by simp [jwtDecode, hlt]⟩ hver
    · have hps : p.sub = some e := by simpa [tokenSub] using hsub
      simp [refresh_token, jwtDecode, hlt, hps, hfe, hst]

/-- The refresh operation fails — always with status 401 — exactly when
the token fails verification or does not match the stored value of the
identified user. -/
theorem refresh_error_iff (now : Nat) (db : List Usr) (t : TokenStr) :
    (∃ e, refresh_token now db t = .error e ∧ e.status = 401)
      ↔ (failsVerification now t ∨ ¬ storedMatch db t) := by
  cases t with
  | garbage s =>
    constructor
    · intro _
      exact Or.inl ⟨.jwtError, rfl⟩
    · intro _
      exact ⟨.http ⟨401, "Invalid token"⟩, rfl, rfl⟩
  | signed p =>
    by_cases hlt : p.exp < now
    · constructor
      · intro _
        exact Or.inl ⟨.expiredSignature, by simp [jwtDecode, hlt]⟩
      · intro _
        exact ⟨.http ⟨401, "Token expired"⟩, by simp [refresh_token, jwtDecode, hlt], rfl⟩
    · have hfv : ¬ failsVerification now (.signed p) := by
        intro ⟨e, he⟩
        simp [jwtDecode, hlt] at he
      cases hs : p.sub with
      | none =>
        constructor
        · intro _
          refine Or.inr ?_
          intro ⟨e2, u2, hsub2, _, _⟩
          simp [tokenSub, hs] at hsub2
        · intro _
          exact ⟨.http ⟨401, "Invalid token"⟩,
            by simp [refresh_token, jwtDecode, hlt, hs], rfl⟩
      | some email =>
        cases hfe : findByEmail db email with
        | none =>
          constructor
          · intro _
            refine Or.inr ?_
            intro ⟨e2, u2, hsub2, hfe2, _⟩
            simp [tokenSub, hs] at hsub2
            rw [← hsub2, hfe] at hfe2
            cases hfe2
          · intro _
            exact ⟨.http ⟨401, "Invalid token"⟩,
              by simp [refresh_token, jwtDecode, hlt, hs, hfe], rfl⟩
        | some user =>
          by_cases hrt : user.refresh_token = some (.signed p)
          · constructor
            · intro ⟨e, he, hest⟩
              simp [refresh_token, jwtDecode, hlt, hs, hfe, hrt] at he
              rw [← he] at hest
              simp [PyErr.status] at hest
            · intro h
              rcases h with h | h
              · exact absurd h hfv
              · exact absurd ⟨email, user, by simp [tokenSub, hs], hfe, hrt⟩ h
          · constructor
            · intro _
              refine Or.inr ?_
              intro ⟨e2, u2, hsub2, hfe2, hst2⟩
              simp [tokenSub, hs] at hsub2
              rw [← hsub2, hfe] at hfe2
              injection hfe2 with hu2
              rw [← hu2] at hst2
              exact hrt hst2
            · intro _
              exact ⟨.http ⟨401, "Invalid token"⟩,
                by simp [refresh_token, jwtDecode, hlt, hs, hfe, hrt], rfl⟩

/-! The reachable-store invariant `storedRefreshOk` holds of the empty
store and is preserved by every store-mutating operation of the core, so
it holds of every store reachable through the embedded operations. -/

theorem storedRefreshOk_nil : storedRefreshOk [] := by
  intro u hu
  exact absurd hu (List.not_mem_nil u)

theorem storedRefreshOk_signup (db : List Usr) (u : SignupData) (salt : Nat)
    (db2 : List Usr) (resp : SignupResponse) (hinv : storedRefreshOk db)
    (h : signup db u salt = .ok (db2, resp)) : storedRefreshOk db2 := by
  unfold signup at h
  by_cases hd : ((db.filter (fun v => v.email == u.email)).head?).isSome
  · rw [if_pos hd] at h; cases h
  · rw [if_neg hd] at h
    simp only [Except.ok.injEq, Prod.mk.injEq] at h
    obtain ⟨hdb2, -⟩ := h
    intro v hv t ht
    rw [← hdb2] at hv
    rcases List.mem_append.mp hv with hn | hn
    · exact hinv v hn t ht
    · have hvn : v.refresh_token = none := by
        rcases List.mem_singleton.mp hn with rfl
        rfl
      rw [hvn] at ht
      cases ht

theorem storedRefreshOk_signin (now : Nat) (db : List Usr) (email pw : String)
    (db2 : List Usr) (resp : SigninResponse) (hinv : storedRefreshOk db)
    (h : signin now db email pw = .ok (db2, resp)) : storedRefreshOk db2 := by
  cases hfe : findByEmail db email with
  | none => simp [signin, authenticate_user, hfe] at h
  | some user =>
    cases hcv : cryptContextVerify pw user.hashed_password with
    | error e0 => simp [signin, authenticate_user, hfe, hcv] at h
    | ok b =>
      cases b with
      | false => simp [signin, authenticate_user, hfe, hcv] at h
      | true =>
        have hau : authenticate_user db email pw = .ok (some user) := by
          simp [authenticate_user, hfe, hcv]
        unfold signin at h
        rw [hau] at h
        simp only [Except.ok.injEq, Prod.mk.injEq] at h
        obtain ⟨hdb2, -⟩ := h
        intro v hv t ht
        rw [← hdb2] at hv
        rcases List.mem_map.mp hv with ⟨w, hw, hfw⟩
        by_cases hid : (w.id == user.id) = true
        · rw [if_pos hid] at hfw
          rw [← hfw] at ht
          have ht2 : t = create_refresh_token now (some user.email) none := by
            simpa using ht.symm
          rw [ht2]
          rfl
        · rw [if_neg hid] at hfw
          rw [← hfw] at ht
          exact hinv w hw t ht

theorem storedRefreshOk_signout (db : List Usr) (u : Usr)
    (hinv : storedRefreshOk db) : storedRefreshOk (signout db u).1 := by
  intro v hv t ht
  have hv2 : v ∈ db.map (fun w =>
      if w.id == u.id then { w with refresh_token := none } else w) := hv
  rcases List.mem_map.mp hv2 with ⟨w, hw, hfw⟩
  by_cases hid : (w.id == u.id) = true
  · rw [if_pos hid] at hfw
    rw [← hfw] at ht
    cases ht
  · rw [if_neg hid] at hfw
    rw [← hfw] at ht
    exact hinv w hw t ht

theorem storedRefreshOk_promote (db : List Usr) (uid : Nat)
    (db2 : List Usr) (u2 : Usr) (hinv : storedRefreshOk db)
    (h : promote_to_moderator db uid = .ok (db2, u2)) : storedRefreshOk db2 := by
  unfold promote_to_moderator at h
  cases hf : (db.filter (fun u => u.id == uid)).head? with
  | none => rw [hf] at h; cases h
  | some user =>
    rw [hf] at h
    simp only [Except.ok.injEq, Prod.mk.injEq] at h
    obtain ⟨hdb2, -⟩ := h
    intro v hv t ht
    rw [← hdb2] at hv
    rcases List.mem_map.mp hv with ⟨w, hw, hfw⟩
    by_cases hid : (w.id == uid) = true
    · rw [if_pos hid] at hfw
      rw [← hfw] at ht
      exact hinv w hw t ht
    · rw [if_neg hid] at hfw
      rw [← hfw] at ht
      exact hinv w hw t ht

theorem storedRefreshOk_block (db : List Usr) (cu : Usr) (uid : Nat) (b : Bool)
    (db2 : List Usr) (u2 : Usr) (hinv : storedRefreshOk db)
    (h : block_user db cu uid b = .ok (db2, u2)) : storedRefreshOk db2 := by
  unfold block_user at h
  by_cases hself : (cu.id == uid) = true
  · rw [if_pos hself] at h; cases h
  · rw [if_neg hself] at h
    cases hf : (db.filter (fun u => u.id == uid)).head? with
    | none => rw [hf] at h; cases h
    | some user =>
      rw [hf] at h
      simp only [Except.ok.injEq, Prod.mk.injEq] at h
      obtain ⟨hdb2, -⟩ := h
      intro v hv t ht
      rw [← hdb2] at hv
      rcases List.mem_map.mp hv with ⟨w, hw, hfw⟩
      by_cases hid : (w.id == uid) = true
      · rw [if_pos hid] at hfw
        rw [← hfw] at ht
        exact hinv w hw t ht
      · rw [if_neg hid] at hfw
        rw [← hfw] at ht
        exact hinv w hw t ht

/-! Claim theorems. -/

/-- C10: the claim says `verify(p, h)` returns false and throws no
exception for every malformed hash `h`; counterexample: on a malformed
hash the code's delegate, passlib `CryptContext.verify`, raises
`UnknownHashError` — it does not return false. -/
theorem c10_counterexample :
    verify_password "password123" (HashStr.malformed "not-a-hash")
      = .error PasslibError.unknownHash
    ∧ verify_password "password123" (HashStr.malformed "not-a-hash")
      ≠ .ok false :=
  ⟨rfl, fun h => Except.noConfusion h⟩

/-- C10 amended: for a well-formed bcrypt hash, `verify_password` returns
(without exception) exactly whether the plaintext matches; for a malformed
hash it raises `UnknownHashError` rather than returning false. -/
theorem c10_amended (p pw s : String) (salt : Nat) :
    verify_password p (HashStr.bcrypt pw salt) = .ok (p == pw)
    ∧ verify_password p (HashStr.malformed s) = .error PasslibError.unknownHash :=
  ⟨rfl, rfl⟩

/-- C4: the claim says signup fails with `DuplicateIdentity` whenever the
email or the username is already registered; counterexample: with
username "alice" already registered (under email a@x.com), a signup
reusing username "alice" with a fresh email b@x.com succeeds and inserts a
second row with the duplicate username. -/
theorem c4_counterexample :
    (∃ v ∈ ([⟨1, "a@x.com", "alice", HashStr.bcrypt "p1" 0, none, Role.admin, false⟩] :
        List Usr), v.username = "alice")
    ∧ signup [⟨1, "a@x.com", "alice", HashStr.bcrypt "p1" 0, none, Role.admin, false⟩]
        ⟨"b@x.com", "alice", "p2", "B", "C"⟩ 0
      = .ok ([⟨1, "a@x.com", "alice", HashStr.bcrypt "p1" 0, none, Role.admin, false⟩,
              ⟨2, "b@x.com", "alice", HashStr.bcrypt "p2" 0, none, Role.user, false⟩],
             ⟨"User created successfully", 2⟩) := by
  refine ⟨⟨_, List.mem_cons_self _ _, rfl⟩, by rfl⟩

/-- C4 amended: signup fails — with a 400 "Email already registered"
error, leaving the store unchanged (the rejection happens before any
insert) — exactly when the given email is already registered
(case-sensitively as stored); a duplicate username alone does not make it
fail. -/
theorem c4_amended (db : List Usr) (u : SignupData) (salt : Nat) :
    ((∃ e, signup db u salt = .error e) ↔ ∃ v ∈ db, v.email = u.email)
    ∧ (∀ e, signup db u salt = .error e → e = ⟨400, "Email already registered"⟩) := by
  unfold signup
  by_cases hd : ((db.filter (fun v => v.email == u.email)).head?).isSome
  · rw [if_pos hd]
    constructor
    · constructor
      · intro _
        rcases Option.isSome_iff_exists.mp hd with ⟨w, hw⟩
        have := findByEmail_mem (show findByEmail db u.email = some w from hw)
        exact ⟨w, this.1, this.2⟩
      · intro _; exact ⟨_, rfl⟩
    · intro e he
      simpa using he.symm
  · rw [if_neg hd]
    constructor
    · constructor
      · intro ⟨e, he⟩; cases he
      · intro ⟨v, hv, hve⟩
        exfalso
        apply hd
        rw [List.head?_isSome]
        intro hnil
        have := List.filter_eq_nil_iff.mp hnil v hv
        simp [hve] at this
    · intro e he; cases he

/-- C5: the claim says promotion never demotes an admin; counterexample:
promoting the (sole, admin) user with id 1 succeeds and sets that admin's
role to `moderator`, a demotion. -/
theorem c5_counterexample :
    promote_to_moderator
        [⟨1, "a@x.com", "alice", HashStr.bcrypt "p1" 0, none, Role.admin, false⟩] 1
      = .ok ([⟨1, "a@x.com", "alice", HashStr.bcrypt "p1" 0, none, Role.moderator, false⟩],
             ⟨1, "a@x.com", "alice", HashStr.bcrypt "p1" 0, none, Role.moderator, false⟩)
    ∧ Role.moderator ≠ Role.admin :=
  ⟨by rfl, by decide⟩

/-- C5 amended: when the target id exists, promote unconditionally sets
that row's role to `moderator` regardless of its prior role (so it can
demote an admin); it never assigns `admin` — every admin row after the
call was already a row of the store before it — and rows with a different
id are untouched, so no operation path here creates additional admins
beyond the first-signup bootstrap rule. -/
theorem c5_amended (db : List Usr) (uid : Nat) (db2 : List Usr) (u2 : Usr)
    (h : promote_to_moderator db uid = .ok (db2, u2)) :
    u2.role = Role.moderator
    ∧ (∀ v ∈ db2, v.role = Role.admin → v ∈ db)
    ∧ (∀ v ∈ db2, v.id ≠ uid → v ∈ db) := by
  unfold promote_to_moderator at h
  cases hf : (db.filter (fun u => u.id == uid)).head? with
  | none => rw [hf] at h; cases h
  | some user =>
    rw [hf] at h
    simp only [Except.ok.injEq, Prod.mk.injEq] at h
    obtain ⟨hdb2, hu2⟩ := h
    refine ⟨by rw [← hu2], ?_, ?_⟩
    · intro v hv hrole
      rw [← hdb2] at hv
      rcases List.mem_map.mp hv with ⟨w, hw, hfw⟩
      by_cases hid : (w.id == uid) = true
      · rw [if_pos hid] at hfw
        rw [← hfw] at hrole
        cases hrole
      · rw [if_neg hid] at hfw
        rw [← hfw]; exact hw
    · intro v hv hvid
      rw [← hdb2] at hv
      rcases List.mem_map.mp hv with ⟨w, hw, hfw⟩
      by_cases hid : (w.id == uid) = true
      · exfalso
        apply hvid
        rw [← hfw, if_pos hid]
        simpa using hid
      · rw [if_neg hid] at hfw
        rw [← hfw]; exact hw

/-- C2: when a signup succeeds, the store grows by exactly the one created
row, whose role is `admin` precisely when the store held zero users at the
moment of the role check; hence the first signup into an empty store
yields `admin` and every later signup yields `user`. -/
theorem c2_first_signup_admin (db : List Usr) (u : SignupData) (salt : Nat)
    (db2 : List Usr) (resp : SignupResponse)
    (h : signup db u salt = .ok (db2, resp)) :
    ∃ nu : Usr, db2 = db ++ [nu]
      ∧ (nu.role = Role.admin ↔ db = [])
      ∧ (db ≠ [] → nu.role = Role.user) := by
  unfold signup at h
  by_cases hd : ((db.filter (fun v => v.email == u.email)).head?).isSome
  · rw [if_pos hd] at h; cases h
  · rw [if_neg hd] at h
    simp only [Except.ok.injEq, Prod.mk.injEq] at h
    obtain ⟨hdb2, _⟩ := h
    refine ⟨_, hdb2.symm, ?_, ?_⟩
    · cases db with
      | nil => simp
      | cons a l => simp
    · intro hne
      cases db with
      | nil => exact absurd rfl hne
      | cons a l => simp

/-- C3: the Authentication Gate rejects a blocked user's structurally
valid, unexpired bearer token with 403 Forbidden, distinct from the 401
used for missing, malformed, or expired tokens and unknown subjects; with
the flag back to false the very same token resolves to the user again. -/
theorem c3_blocked_forbidden (now : Nat) (db : List Usr) (p : Payload)
    (e : String) (u : Usr)
    (hexp : now ≤ p.exp) (hsub : p.sub = some e) (hu : findByEmail db e = some u) :
    (u.is_blocked = true →
      get_current_user now db (some (.signed p)) = .error ⟨403, "Your account is blocked."⟩)
    ∧ (u.is_blocked = false → get_current_user now db (some (.signed p)) = .ok u)
    ∧ get_current_user now db none = .error ⟨401, "Not authenticated"⟩
    ∧ (∀ s, get_current_user now db (some (.garbage s))
        = .error ⟨401, "Could not validate credentials"⟩)
    ∧ (∀ q : Payload, q.exp < now →
        get_current_user now db (some (.signed q))
          = .error ⟨401, "Could not validate credentials"⟩)
    ∧ (∀ (q : Payload) (e2 : String), now ≤ q.exp → q.sub = some e2 →
        findByEmail db e2 = none →
        get_current_user now db (some (.signed q))
          = .error ⟨401, "Could not validate credentials"⟩)
    ∧ (403 : Nat) ≠ 401 := by
  refine ⟨?_, ?_, rfl, fun s => rfl, ?_, ?_, by decide⟩
  · intro hb
    simp [get_current_user, jwtDecode, Nat.not_lt.mpr hexp, hsub, hu, hb]
  · intro hb
    simp [get_current_user, jwtDecode, Nat.not_lt.mpr hexp, hsub, hu, hb]
  · intro q hq
    simp [get_current_user, jwtDecode, hq]
  · intro q e2 hq hsubq hnone
    simp [get_current_user, jwtDecode, Nat.not_lt.mpr hq, hsubq, hnone]

/-- C3 witness at a concrete blocked user and concrete token. -/
theorem c3_blocked_forbidden_witness :
    ((⟨1, "a@x.com", "alice", HashStr.bcrypt "p1" 0, none, Role.user, true⟩ : Usr).is_blocked = true →
      get_current_user 0 [⟨1, "a@x.com", "alice", HashStr.bcrypt "p1" 0, none, Role.user, true⟩]
          (some (.signed ⟨some "a@x.com", 0, 100, "access_token"⟩))
        = .error ⟨403, "Your account is blocked."⟩)
    ∧ ((⟨1, "a@x.com", "alice", HashStr.bcrypt "p1" 0, none, Role.user, true⟩ : Usr).is_blocked = false →
      get_current_user 0 [⟨1, "a@x.com", "alice", HashStr.bcrypt "p1" 0, none, Role.user, true⟩]
          (some (.signed ⟨some "a@x.com", 0, 100, "access_token"⟩))
        = .ok ⟨1, "a@x.com", "alice", HashStr.bcrypt "p1" 0, none, Role.user, true⟩)
    ∧ get_current_user 0 [⟨1, "a@x.com", "alice", HashStr.bcrypt "p1" 0, none, Role.user, true⟩] none
        = .error ⟨401, "Not authenticated"⟩
    ∧ (∀ s, get_current_user 0 [⟨1, "a@x.com", "alice", HashStr.bcrypt "p1" 0, none, Role.user, true⟩]
        (some (.garbage s)) = .error ⟨401, "Could not validate credentials"⟩)
    ∧ (∀ q : Payload, q.exp < 0 →
        get_current_user 0 [⟨1, "a@x.com", "alice", HashStr.bcrypt "p1" 0, none, Role.user, true⟩]
          (some (.signed q)) = .error ⟨401, "Could not validate credentials"⟩)
    ∧ (∀ (q : Payload) (e2 : String), 0 ≤ q.exp → q.sub = some e2 →
        findByEmail [⟨1, "a@x.com", "alice", HashStr.bcrypt "p1" 0, none, Role.user, true⟩] e2 = none →
        get_current_user 0 [⟨1, "a@x.com", "alice", HashStr.bcrypt "p1" 0, none, Role.user, true⟩]
          (some (.signed q)) = .error ⟨401, "Could not validate credentials"⟩)
    ∧ (403 : Nat) ≠ 401 :=
  c3_blocked_forbidden 0 _ ⟨some "a@x.com", 0, 100, "access_token"⟩ "a@x.com" _
    (by decide) (by rfl) (by rfl)

/-- C6: the Authentication Gate never inspects the `scope` claim: a
refresh token produced by `create_refresh_token` — whose scope is
`refresh_token` — is accepted as a bearer token and resolves to the known,
unblocked subject on every gated route. -/
theorem c6_gate_ignores_scope (nowI nowG : Nat) (db : List Usr) (e : String) (u : Usr)
    (hexp : nowG ≤ nowI + 7 * 86400)
    (hu : findByEmail db e = some u) (hb : u.is_blocked = false) :
    tokenScope (create_refresh_token nowI (some e) none) = some "refresh_token"
    ∧ get_current_user nowG db (some (create_refresh_token nowI (some e) none)) = .ok u := by
  constructor
  · rfl
  · simp [get_current_user, create_refresh_token, pyTruthy, jwtDecode,
      Nat.not_lt.mpr hexp, hu, hb]

/-- C6 witness: a concrete 7-day refresh token accepted by the gate. -/
theorem c6_gate_ignores_scope_witness :
    tokenScope (create_refresh_token 0 (some "a@x.com") none) = some "refresh_token"
    ∧ get_current_user 5 [⟨1, "a@x.com", "alice", HashStr.bcrypt "p1" 0, none, Role.user, false⟩]
        (some (create_refresh_token 0 (some "a@x.com") none))
      = .ok ⟨1, "a@x.com", "alice", HashStr.bcrypt "p1" 0, none, Role.user, false⟩ :=
  c6_gate_ignores_scope 0 5 _ "a@x.com" _ (by decide) (by rfl) (by rfl)

/-- C7: the Authorization Gate tests exact membership of the caller's role
in the declared allow-set, not hierarchical order: `admin_required` (the
gate of the admin-only promote/block routes) rejects a moderator with 403,
and succeeds exactly on role `admin`; likewise `RoleChecker` succeeds
exactly when the caller's role is a member of the declared list, so a
route declaring only `admin` rejects a moderator with 403. -/
theorem c7_exact_role_membership (u : Usr) (hrole : u.role = Role.moderator) :
    admin_required u
      = .error ⟨403, "You do not have the necessary permissions to access this resource."⟩
    ∧ roleCheckerCall [Role.admin] u
      = .error ⟨403, "You do not have permission to perform this action"⟩
    ∧ (∀ v : Usr, (∃ w, admin_required v = .ok w) ↔ v.role = Role.admin)
    ∧ (∀ (v : Usr) (allowed : List Role),
        (∃ w, roleCheckerCall allowed v = .ok w) ↔ v.role ∈ allowed) := by
  refine ⟨?_, ?_, ?_, ?_⟩
  · simp [admin_required, hrole]
  · simp [roleCheckerCall, hrole, Role.pyName]
  · intro v
    unfold admin_required
    by_cases h : v.role = Role.admin
    · rw [if_neg (by simpa using h)]
      exact ⟨fun _ => h, fun _ => ⟨v, rfl⟩⟩
    · rw [if_pos (by simpa using h)]
      exact ⟨fun ⟨w, hw⟩ => Except.noConfusion hw, fun hh => absurd hh h⟩
  · intro v allowed
    unfold roleCheckerCall
    by_cases hc : ((allowed.map Role.pyName).contains v.role.pyName) = true
    · rw [if_neg (by simpa using hc)]
      exact ⟨fun _ => (roleNames_mem allowed v.role).mp hc,
             fun _ => ⟨v, rfl⟩⟩
    · rw [if_pos (by simpa using hc)]
      refine ⟨fun ⟨w, hw⟩ => Except.noConfusion hw, fun hm => ?_⟩
      exact absurd ((roleNames_mem allowed v.role).mpr hm) hc

/-- C7 witness at a concrete moderator. -/
theorem c7_exact_role_membership_witness :
    admin_required ⟨2, "b@x.com", "bob", HashStr.bcrypt "p2" 0, none, Role.moderator, false⟩
      = .error ⟨403, "You do not have the necessary permissions to access this resource."⟩
    ∧ roleCheckerCall [Role.admin]
        ⟨2, "b@x.com", "bob", HashStr.bcrypt "p2" 0, none, Role.moderator, false⟩
      = .error ⟨403, "You do not have permission to perform this action"⟩
    ∧ (∀ v : Usr, (∃ w, admin_required v = .ok w) ↔ v.role = Role.admin)
    ∧ (∀ (v : Usr) (allowed : List Role),
        (∃ w, roleCheckerCall allowed v = .ok w) ↔ v.role ∈ allowed) :=
  c7_exact_role_membership _ (by rfl)

/-- C8: signout always succeeds for a valid (authenticated) user, clears
that user's stored refresh token to absent, and afterwards every refresh
token bearing that user's subject — in particular every one issued to the
user before the signout — is rejected by refresh with a 401 error, with no
intervening signin. -/
theorem c8_signout_invalidates (now : Nat) (db : List Usr) (u : Usr) (t : TokenStr)
    (hu : findByEmail db u.email = some u)
    (hsub : tokenSub t = some u.email) :
    (signout db u).2 = { msg := "Successfully logged out" }
    ∧ findByEmail (signout db u).1 u.email = some { u with refresh_token := none }
    ∧ (∃ e, refresh_token now (signout db u).1 t = .error e ∧ e.status = 401) := by
  have hf : ∀ v : Usr,
      ((fun v => if v.id == u.id then { v with refresh_token := none } else v) v).email
        = v.email := by
    intro v
    by_cases h : (v.id == u.id) = true <;> simp [h]
  have h2 : findByEmail (signout db u).1 u.email
      = some { u with refresh_token := none } := by
    show findByEmail (db.map _) u.email = _
    rw [findByEmail_map db u.email _ hf, hu]
    simp
  refine ⟨rfl, h2, ?_⟩
  cases t with
  | garbage s => exact ⟨.http ⟨401, "Invalid token"⟩, rfl, rfl⟩
  | signed p =>
    have hps : p.sub = some u.email := by simpa [tokenSub] using hsub
    by_cases hlt : p.exp < now
    · exact ⟨.http ⟨401, "Token expired"⟩, by simp [refresh_token, jwtDecode, hlt], rfl⟩
    · refine ⟨.http ⟨401, "Invalid token"⟩, ?_, rfl⟩
      simp [refresh_token, jwtDecode, hlt, hps, h2]

/-- C8 witness: a concrete user whose stored refresh token is rejected
right after signout. -/
theorem c8_signout_invalidates_witness :
    (signout [⟨1, "a@x.com", "alice", HashStr.bcrypt "p1" 0,
        some (.signed ⟨some "a@x.com", 0, 604800, "refresh_token"⟩), Role.user, false⟩]
      ⟨1, "a@x.com", "alice", HashStr.bcrypt "p1" 0,
        some (.signed ⟨some "a@x.com", 0, 604800, "refresh_token"⟩), Role.user, false⟩).2
      = { msg := "Successfully logged out" }
    ∧ findByEmail
        (signout [⟨1, "a@x.com", "alice", HashStr.bcrypt "p1" 0,
            some (.signed ⟨some "a@x.com", 0, 604800, "refresh_token"⟩), Role.user, false⟩]
          ⟨1, "a@x.com", "alice", HashStr.bcrypt "p1" 0,
            some (.signed ⟨some "a@x.com", 0, 604800, "refresh_token"⟩), Role.user, false⟩).1
        "a@x.com"
      = some ⟨1, "a@x.com", "alice", HashStr.bcrypt "p1" 0, none, Role.user, false⟩
    ∧ (∃ e, refresh_token 5
        (signout [⟨1, "a@x.com", "alice", HashStr.bcrypt "p1" 0,
            some (.signed ⟨some "a@x.com", 0, 604800, "refresh_token"⟩), Role.user, false⟩]
          ⟨1, "a@x.com", "alice", HashStr.bcrypt "p1" 0,
            some (.signed ⟨some "a@x.com", 0, 604800, "refresh_token"⟩), Role.user, false⟩).1
        (.signed ⟨some "a@x.com", 0, 604800, "refresh_token"⟩) = .error e ∧ e.status = 401) :=
  c8_signout_invalidates 5 _ _ (.signed ⟨some "a@x.com", 0, 604800, "refresh_token"⟩)
    (by rfl) (by rfl)

/-- C9: code bug — the claim quantifies over successful refresh calls,
but no refresh call ever succeeds: on every input the handler returns an
error, and on a concrete input satisfying the claim's premise (the token
verifies and exactly matches the stored value of the identified user) the
operation raises the uncaught `TypeError` — a 500, not a token response —
at the `await create_access_token(...)` line, instead of issuing the new
access token the claim (and the handler's own docstring) describe. No
path performs a store write, so the no-mutation half of the claim is true
of the source, but vacuously so. -/
theorem c9_refresh_never_succeeds :
    (∀ (now : Nat) (db : List Usr) (t : TokenStr) (db2 : List Usr)
        (r : AccessTokenResponse), refresh_token now db t ≠ .ok (db2, r))
    ∧ refresh_token 5
        [⟨1, "a@x.com", "alice", HashStr.bcrypt "p1" 0,
          some (.signed ⟨some "a@x.com", 0, 604800, "refresh_token"⟩), Role.user, false⟩]
        (.signed ⟨some "a@x.com", 0, 604800, "refresh_token"⟩) = .error .typeError
    ∧ PyErr.status .typeError = 500
    ∧ (500 : Nat) ≠ 401 :=
  ⟨fun now db t db2 r => refresh_never_ok now db t db2 r, by rfl, rfl, by decide⟩

/-- C1: the failure side of the claim is faithful to the code — under the
reachable-store invariant that stored refresh tokens carry scope
`refresh_token`, the refresh operation fails with a 401 error precisely
when the presented token fails signature/expiry verification, when its
scope claim is not `refresh_token`, or when it is not exactly the value
currently stored on the user its subject identifies (including a missing
or unknown subject); and after a new signin overwrites the stored value,
any refresh token issued at a different time for that subject is rejected
with a 401 error. The success side is a code bug: no refresh call ever
returns a token — whenever every check passes, the handler awaits the
synchronous `create_access_token` and raises an uncaught `TypeError`
(a 500, not the claimed access-token response). -/
theorem c1_refresh_invalid_iff_bug (now : Nat) (db : List Usr) (t : TokenStr)
    (hinv : storedRefreshOk db) :
    ((∃ e, refresh_token now db t = .error e ∧ e.status = 401) ↔
      (failsVerification now t ∨ tokenScope t ≠ some "refresh_token" ∨ ¬ storedMatch db t))
    ∧ (∀ db2 r, refresh_token now db t ≠ .ok (db2, r))
    ∧ (¬ failsVerification now t → storedMatch db t →
        refresh_token now db t = .error .typeError ∧ PyErr.status .typeError = 500)
    ∧ (∀ ns nr email pw db2 resp p,
        signin ns db email pw = .ok (db2, resp) →
        t = .signed p → p.sub = some email → p.iat ≠ ns →
        ∃ e, refresh_token nr db2 t = .error e ∧ e.status = 401) := by
  refine ⟨?_, ?_, ?_, ?_⟩
  · rw [refresh_error_iff]
    constructor
    · rintro (h | h)
      · exact Or.inl h
      · exact Or.inr (Or.inr h)
    · rintro (h | h | h)
      · exact Or.inl h
      · refine Or.inr ?_
        intro ⟨e2, u2, hsub, hfe, hst⟩
        exact h (hinv u2 (findByEmail_mem hfe).1 t hst)
      · exact Or.inr h
  · intro db2 r
    exact refresh_never_ok now db t db2 r
  · intro hver hm
    exact ⟨refresh_crash_on_match now db t hver hm, rfl⟩
  · intro ns nr email pw db2 resp p hsignin ht hps hiat
    subst ht
    cases hfe : findByEmail db email with
    | none => simp [signin, authenticate_user, hfe] at hsignin
    | some user =>
      cases hcv : cryptContextVerify pw user.hashed_password with
      | error e0 => simp [signin, authenticate_user, hfe, hcv] at hsignin
      | ok b =>
        cases b with
        | false => simp [signin, authenticate_user, hfe, hcv] at hsignin
        | true =>
          have hau : authenticate_user db email pw = .ok (some user) := by
            simp [authenticate_user, hfe, hcv]
          unfold signin at hsignin
          rw [hau] at hsignin
          simp only [Except.ok.injEq, Prod.mk.injEq] at hsignin
          obtain ⟨hdb2, -⟩ := hsignin
          have hf : ∀ v : Usr,
              ((fun v => if v.id == user.id then { v with refresh_token := some (create_refresh_token ns (some user.email) none) } else v) v).email
                = v.email := by
            intro v
            by_cases hh : (v.id == user.id) = true <;> simp [hh]
          have h2 : findByEmail db2 email
              = some { user with refresh_token := some (create_refresh_token ns (some user.email) none) } := by
            rw [← hdb2, findByEmail_map db email _ hf, hfe]
            simp
          by_cases hlt : p.exp < nr
          · exact ⟨.http ⟨401, "Token expired"⟩, by simp [refresh_token, jwtDecode, hlt], rfl⟩
          · refine ⟨.http ⟨401, "Invalid token"⟩, ?_, rfl⟩
            have hcr : create_refresh_token ns (some user.email) none
                = .signed ⟨some user.email, ns, ns + 7 * 86400, "refresh_token"⟩ := rfl
            have hne : some (create_refresh_token ns (some user.email) none)
                ≠ some (TokenStr.signed p) := by
              rw [hcr]
              intro hcontra
              apply hiat
              injection hcontra with hts
              injection hts with hpay
              rw [← hpay]
            simp [refresh_token, jwtDecode, hlt, hps, h2, hne]

/-- C1 witness: a concrete store satisfying the invariant together with
its stored (matching) refresh token. -/
theorem c1_refresh_invalid_iff_bug_witness :
    ((∃ e, refresh_token 5
        [⟨1, "a@x.com", "alice", HashStr.bcrypt "p1" 0,
          some (.signed ⟨some "a@x.com", 0, 604800, "refresh_token"⟩), Role.user, false⟩]
        (.signed ⟨some "a@x.com", 0, 604800, "refresh_token"⟩) = .error e ∧ e.status = 401) ↔
      (failsVerification 5 (.signed ⟨some "a@x.com", 0, 604800, "refresh_token"⟩)
        ∨ tokenScope (.signed ⟨some "a@x.com", 0, 604800, "refresh_token"⟩) ≠ some "refresh_token"
        ∨ ¬ storedMatch
            [⟨1, "a@x.com", "alice", HashStr.bcrypt "p1" 0,
              some (.signed ⟨some "a@x.com", 0, 604800, "refresh_token"⟩), Role.user, false⟩]
            (.signed ⟨some "a@x.com", 0, 604800, "refresh_token"⟩)))
    ∧ (∀ db2 r, refresh_token 5
        [⟨1, "a@x.com", "alice", HashStr.bcrypt "p1" 0,
          some (.signed ⟨some "a@x.com", 0, 604800, "refresh_token"⟩), Role.user, false⟩]
        (.signed ⟨some "a@x.com", 0, 604800, "refresh_token"⟩) ≠ .ok (db2, r))
    ∧ (¬ failsVerification 5 (.signed ⟨some "a@x.com", 0, 604800, "refresh_token"⟩) →
        storedMatch
          [⟨1, "a@x.com", "alice", HashStr.bcrypt "p1" 0,
            some (.signed ⟨some "a@x.com", 0, 604800, "refresh_token"⟩), Role.user, false⟩]
          (.signed ⟨some "a@x.com", 0, 604800, "refresh_token"⟩) →
        refresh_token 5
          [⟨1, "a@x.com", "alice", HashStr.bcrypt "p1" 0,
            some (.signed ⟨some "a@x.com", 0, 604800, "refresh_token"⟩), Role.user, false⟩]
          (.signed ⟨some "a@x.com", 0, 604800, "refresh_token"⟩) = .error .typeError
        ∧ PyErr.status .typeError = 500)
    ∧ (∀ ns nr email pw db2 resp p,
        signin ns
          [⟨1, "a@x.com", "alice", HashStr.bcrypt "p1" 0,
            some (.signed ⟨some "a@x.com", 0, 604800, "refresh_token"⟩), Role.user, false⟩]
          email pw = .ok (db2, resp) →
        (.signed ⟨some "a@x.com", 0, 604800, "refresh_token"⟩ : TokenStr) = .signed p →
        p.sub = some email → p.iat ≠ ns →
        ∃ e, refresh_token nr db2
          (.signed ⟨some "a@x.com", 0, 604800, "refresh_token"⟩) = .error e ∧ e.status = 401) :=
  c1_refresh_invalid_iff_bug 5
    [⟨1, "a@x.com", "alice", HashStr.bcrypt "p1" 0,
      some (.signed ⟨some "a@x.com", 0, 604800, "refresh_token"⟩), Role.user, false⟩]
    (.signed ⟨some "a@x.com", 0, 604800, "refresh_token"⟩)
    (by
      intro u hu t ht
      have hu2 : u = ⟨1, "a@x.com", "alice", HashStr.bcrypt "p1" 0,
          some (.signed ⟨some "a@x.com", 0, 604800, "refresh_token"⟩), Role.user, false⟩ := by
        simpa using hu
      subst hu2
      have ht2 : t = .signed ⟨some "a@x.com", 0, 604800, "refresh_token"⟩ := by
        have := ht.symm
        simpa using this
      rw [ht2]
      rfl)

/-- C2 witness: signup into the empty store creates the admin. -/
theorem c2_first_signup_admin_witness :
    ∃ nu : Usr,
      ([⟨1, "a@x.com", "a", HashStr.bcrypt "p1" 0, none, Role.admin, false⟩] : List Usr)
        = [] ++ [nu]
      ∧ (nu.role = Role.admin ↔ ([] : List Usr) = [])
      ∧ (([] : List Usr) ≠ [] → nu.role = Role.user) :=
  c2_first_signup_admin [] ⟨"a@x.com", "a", "p1", "A", "B"⟩ 0
    [⟨1, "a@x.com", "a", HashStr.bcrypt "p1" 0, none, Role.admin, false⟩]
    ⟨"User created successfully", 1⟩ (by rfl)

/-- C4 amended witness at a concrete store and request. -/
theorem c4_amended_witness :
    ((∃ e, signup [⟨1, "a@x.com", "alice", HashStr.bcrypt "p1" 0, none, Role.admin, false⟩]
        ⟨"a@x.com", "carol", "p3", "C", "D"⟩ 0 = .error e) ↔
      ∃ v ∈ ([⟨1, "a@x.com", "alice", HashStr.bcrypt "p1" 0, none, Role.admin, false⟩] :
          List Usr), v.email = "a@x.com")
    ∧ (∀ e, signup [⟨1, "a@x.com", "alice", HashStr.bcrypt "p1" 0, none, Role.admin, false⟩]
        ⟨"a@x.com", "carol", "p3", "C", "D"⟩ 0 = .error e →
        e = ⟨400, "Email already registered"⟩) :=
  c4_amended [⟨1, "a@x.com", "alice", HashStr.bcrypt "p1" 0, none, Role.admin, false⟩]
    ⟨"a@x.com", "carol", "p3", "C", "D"⟩ 0

/-- C5 amended witness at the concrete demoting promote call. -/
theorem c5_amended_witness :
    (⟨1, "a@x.com", "alice", HashStr.bcrypt "p1" 0, none, Role.moderator, false⟩ : Usr).role
      = Role.moderator
    ∧ (∀ v ∈ ([⟨1, "a@x.com", "alice", HashStr.bcrypt "p1" 0, none, Role.moderator, false⟩] :
          List Usr), v.role = Role.admin →
        v ∈ ([⟨1, "a@x.com", "alice", HashStr.bcrypt "p1" 0, none, Role.admin, false⟩] :
          List Usr))
    ∧ (∀ v ∈ ([⟨1, "a@x.com", "alice", HashStr.bcrypt "p1" 0, none, Role.moderator, false⟩] :
          List Usr), v.id ≠ 1 →
        v ∈ ([⟨1, "a@x.com", "alice", HashStr.bcrypt "p1" 0, none, Role.admin, false⟩] :
          List Usr)) :=
  c5_amended [⟨1, "a@x.com", "alice", HashStr.bcrypt "p1" 0, none, Role.admin, false⟩] 1
    [⟨1, "a@x.com", "alice", HashStr.bcrypt "p1" 0, none, Role.moderator, false⟩]
    ⟨1, "a@x.com", "alice", HashStr.bcrypt "p1" 0, none, Role.moderator, false⟩ (by rfl)

end PhotoShare
